import Mathlib

set_option maxHeartbeats 2000000
set_option maxRecDepth 4000

/-
  Verification of the 13F-HR filing extraction and classification engine.

  Shallow embedding of the Python sources:
    src/src/data_extraction/extract_13F_HR.py
    src/src/data_transformation/class_title_transform.py
    src/src/data_transformation/class_title_transformer.py
  Strings are modelled as Lean strings over their character lists; the regular
  expressions used by the code are modelled by hand-written leftmost-match
  scanners that reproduce the relevant matching semantics (greedy and lazy
  quantifiers over disjoint character classes are deterministic).  Character
  classes are modelled over ASCII, which covers the document markers and all
  inputs the theorems below evaluate.
-/

/-- ASCII whitespace, modelling the Python regex class backslash-s and the
default strip() character set for the inputs in scope. -/
def isWsChar (c : Char) : Bool :=
  c == ' ' || c == '\t' || c == '\n' || c == '\r' || c == '\x0b' || c == '\x0c'

/-- Leading and trailing whitespace removed, modelling Python str.strip(). -/
def stripList (l : List Char) : List Char :=
  ((l.dropWhile isWsChar).reverse.dropWhile isWsChar).reverse

/-- String version of stripList. -/
def pyStripS (s : String) : String :=
  String.mk (stripList s.toList)

/-- Does the pattern (first argument) occur as a prefix of the list? -/
def startsWithL : List Char → List Char → Bool
  | [], _ => true
  | _ :: _, [] => false
  | p :: ps, c :: cs => p == c && startsWithL ps cs

/-- Does the pattern occur as a suffix of the list? -/
def endsWithL (pat l : List Char) : Bool :=
  startsWithL pat.reverse l.reverse

/-- Does the pattern occur as a contiguous substring of the list?
Models the Python `in` operator on strings. -/
def containsL (pat : List Char) : List Char → Bool
  | [] => startsWithL pat []
  | c :: cs => startsWithL pat (c :: cs) || containsL pat cs

/-- Substring test on strings: does pat occur inside hay? -/
def containsStr (hay pat : String) : Bool :=
  containsL pat.toList hay.toList

/-- Prefix test on strings, modelling Python str.startswith. -/
def startsWithStr (hay pat : String) : Bool :=
  startsWithL pat.toList hay.toList

/-- Consume an exact literal (case sensitive); return the rest on success. -/
def dropPreL : List Char → List Char → Option (List Char)
  | [], s => some s
  | _ :: _, [] => none
  | p :: ps, c :: cs => if p == c then dropPreL ps cs else none

/-- Consume an exact literal, comparing case-insensitively (ASCII),
modelling re.IGNORECASE on literal pattern text. -/
def dropPreCI : List Char → List Char → Option (List Char)
  | [], s => some s
  | _ :: _, [] => none
  | p :: ps, c :: cs => if p.toLower == c.toLower then dropPreCI ps cs else none

/-- Leftmost-match search: try the position matcher at every suffix, in
order, returning the first success.  Models re.search for the matchers
used in this file. -/
def scanFor {α : Type} (p : List Char → Option α) : List Char → Option α
  | [] => p []
  | c :: cs =>
    match p (c :: cs) with
    | some r => some r
    | none => scanFor p cs

/-- Leftmost-match search returning the offset of the match start. -/
def scanIdx {α : Type} (p : List Char → Option α) : Nat → List Char → Option Nat
  | i, [] =>
    match p [] with
    | some _ => some i
    | none => none
  | i, c :: cs =>
    match p (c :: cs) with
    | some _ => some i
    | none => scanIdx p (i + 1) cs

/-- Consume exactly n digits; return them and the rest. -/
def takeDigitsN : Nat → List Char → Option (List Char × List Char)
  | 0, l => some ([], l)
  | _ + 1, [] => none
  | n + 1, c :: cs =>
    if c.isDigit then
      match takeDigitsN n cs with
      | some (d, r) => some (c :: d, r)
      | none => none
    else none

/-- Greedily consume up to n digits (possibly fewer); return them and the rest. -/
def takeDigitsUpTo : Nat → List Char → List Char × List Char
  | 0, l => ([], l)
  | _ + 1, [] => ([], [])
  | n + 1, c :: cs =>
    if c.isDigit then
      let p := takeDigitsUpTo n cs
      (c :: p.1, p.2)
    else ([], c :: cs)

/-- Decimal value of a digit list (most significant first). -/
def digitsVal (l : List Char) : Nat :=
  l.foldl (fun a c => a * 10 + (c.toNat - 48)) 0

/-- Split a character list on a separator character, keeping empty pieces,
modelling Python str.split(sep). -/
def splitOnC (sep : Char) : List Char → List (List Char)
  | [] => [[]]
  | c :: cs =>
    let r := splitOnC sep cs
    if c == sep then [] :: r
    else
      match r with
      | [] => [[c]]
      | w :: ws => (c :: w) :: ws

/-- Split the list at the first colon, modelling str.split(":", 1):
returns (before, after) when a colon is present. -/
def splitColon : List Char → Option (List Char × List Char)
  | [] => none
  | ':' :: cs => some ([], cs)
  | c :: cs =>
    match splitColon cs with
    | some (a, b) => some (c :: a, b)
    | none => none

/-- Valid remainder of a Python integer-literal body once the previous
character was a digit: digits, with single underscores only between digits. -/
def pyIntBodyAux : List Char → Bool
  | [] => true
  | '_' :: [] => false
  | '_' :: c :: rest => c.isDigit && pyIntBodyAux rest
  | c :: rest => c.isDigit && pyIntBodyAux rest

/-- Valid Python integer-literal body: nonempty, starts with a digit,
underscores only between digits. -/
def pyIntBody : List Char → Bool
  | [] => false
  | c :: rest => c.isDigit && pyIntBodyAux rest

/-- Models the Python builtin int() applied to a string (ASCII model):
surrounding whitespace allowed, one optional sign, then a digit body with
optional single underscores between digits; None when parsing fails. -/
def pyIntParse (s : String) : Option Int :=
  let l := stripList s.toList
  let sgn : Bool × List Char :=
    match l with
    | '+' :: r => (false, r)
    | '-' :: r => (true, r)
    | r => (false, r)
  if pyIntBody sgn.2 then
    let v : Int := Int.ofNat (digitsVal (sgn.2.filter Char.isDigit))
    some (if sgn.1 then -v else v)
  else none

/-- All characters outside 0-9 removed, modelling re.sub applied with the
pattern that keeps only ASCII digits. -/
def stripNonDigits (s : String) : String :=
  String.mk (s.toList.filter Char.isDigit)

/-- Models InfoTableExtractor._to_int: empty string gives None; a direct
int() parse is used when it succeeds; otherwise all non-digit characters
are stripped and the remainder parsed, None when no digits remain. -/
def InfoTableExtractor.toInt (s : String) : Option Int :=
  if s = "" then none
  else
    match pyIntParse s with
    | some n => some n
    | none =>
      let d := stripNonDigits s
      if d = "" then none
      else some (Int.ofNat (digitsVal d.toList))

/-- Split into maximal nonempty whitespace-free tokens, modelling Python
str.split() with no arguments. -/
def splitWsAux (cur : List Char) (acc : List (List Char)) : List Char → List (List Char)
  | [] => if cur = [] then acc.reverse else (cur.reverse :: acc).reverse
  | c :: cs =>
    if isWsChar c then
      if cur = [] then splitWsAux [] acc cs
      else splitWsAux [] (cur.reverse :: acc) cs
    else splitWsAux (c :: cur) acc cs

/-- Join token lists with single spaces. -/
def joinSp : List (List Char) → List Char
  | [] => []
  | [w] => w
  | w :: ws => w ++ ' ' :: joinSp ws

/-- Models ClassTitleTransform.normalize_title: uppercase (ASCII model of
str.upper), then collapse whitespace runs to single spaces via
split-and-join. -/
def ClassTitleTransform.normalizeTitle (t : String) : String :=
  String.mk (joinSp (splitWsAux [] [] (t.toList.map Char.toUpper)))

/-- Does the normalized title contain any of the given patterns?  Models the
Python generator expression any(p in t for p in ps). -/
def anyIn (t : String) (ps : List String) : Bool :=
  ps.any (fun p => containsStr t p)

/-- First-match-wins evaluation of an ordered decision list: the result of
the first pair whose condition holds, or the default.  This is the
evaluation scheme of a Python if/elif chain. -/
def firstMatch : List (Bool × String) → String → String
  | [], dflt => dflt
  | p :: rest, dflt => if p.1 then p.2 else firstMatch rest dflt

/-- The common-stock sub-classification nested inside the common-stock
branch of _categorize_single: named share classes A, B, C when tagged,
else the generic common-stock category. -/
def ClassTitleTransform.commonSub (t : String) : String :=
  if containsStr t "CL A" || containsStr t "CLASS A" || containsStr t "SER A" then
    "Common Stock - Class A"
  else if containsStr t "CL B" || containsStr t "CLASS B" || containsStr t "SER B" then
    "Common Stock - Class B"
  else if containsStr t "CL C" || containsStr t "CLASS C" || containsStr t "SER C" then
    "Common Stock - Class C"
  else
    "Common Stock"

/-- The ordered rule cascade of ClassTitleTransform._categorize_single as
an explicit decision list, one entry per if/elif branch of the source in
source order (an elif chain is consecutive entries).  Entry 21 (index 20)
is the technology-sector rule and entry 45 (index 44) is the generic
fund/ETF/index catch-all. -/
def ClassTitleTransform.rules (t : String) : List (Bool × String) :=
  [(containsStr t "*W EXP" || (containsStr t "RIGHT" && !containsStr t "99/99"),
    "Expiring Security - Rights & Warrants"),
   (containsStr t "IBOND", "Target Maturity Bond ETF"),
   (startsWithStr t "NOTE ", "Fixed Income Note"),
   (anyIn t ["COM STK", "COM SHS", "COMMON STOCK", "COMMON SHARES",
             "COMMON", "COM NEW", "COM PAR", "COM NPV", "COM UNIT", "ORDINARY"],
    ClassTitleTransform.commonSub t),
   (anyIn t ["PFD", "PREF", "PREFERRED"], "Preferred Stock"),
   (containsStr t "ADR" || containsStr t "ADS" || containsStr t "SPON",
    "American Depositary Receipt"),
   (startsWithStr t "UNIT" || (containsStr t "UNIT" && containsStr t "LP"),
    "Partnership Unit"),
   (anyIn t ["TREASURY", "TREAS", "T-BILL"], "US Treasury Security"),
   (containsStr t "MUNI" || containsStr t "MUNICIPAL", "Municipal Bond ETF"),
   (containsStr t "HIGH YIELD" || containsStr t "HIGH YLD" || containsStr t "HI YLD",
    "High Yield Bond ETF"),
   (containsStr t "INVT GR" || containsStr t "INVESTMENT GRADE" || containsStr t "INV GR",
    "Investment Grade Bond ETF"),
   (anyIn t ["SHORT TERM", "SHORT-TERM", "SHRT", "SHORT DUR"], "Short Term Bond ETF"),
   (anyIn t ["INTERMEDIATE", "INTERMED", "INT-TERM"], "Intermediate Term Bond ETF"),
   (anyIn t ["LONG TERM", "LONG-TERM", "LT ", "20+", "25+"], "Long Term Bond ETF"),
   (containsStr t "TIPS" || (containsStr t "INFLATION" && containsStr t "ETF"),
    "Inflation Protected Bond ETF"),
   (containsStr t "ESG" || containsStr t "SUSTAINABLE"
      || (containsStr t "CLEAN" && containsStr t "ETF"),
    "ESG/Sustainable Equity ETF"),
   (anyIn t ["CHINA", "ASIA", "PACIFIC", "HONG KONG", "TAIWAN", "JAPAN", "INDIA", "KOREA"],
    "Asia Pacific Equity ETF"),
   (anyIn t ["EUROPE", "EURO", "EAFE", "UK", "GERMANY", "FRANCE", "SPAIN", "ITALY"],
    "European Equity ETF"),
   (anyIn t ["LATIN", "BRAZIL", "MEXICO", "CHILE"], "Latin America Equity ETF"),
   (containsStr t "EMERG" || containsStr t "EM MKT" || containsStr t "EM MK",
    "Emerging Markets Equity ETF"),
   (anyIn t ["TECH", "SEMICONDUCTOR", "SOFTWARE", "CYBER", "CLOUD", "AI", "ARTIFICIAL"],
    "Technology Sector ETF"),
   (anyIn t ["HEALTH", "PHARMA", "BIOTECH", "MEDICAL"], "Healthcare Sector ETF"),
   (anyIn t ["FINANC", "BANK", "BK ETF", "INSURANCE"], "Financial Sector ETF"),
   (containsStr t "ENERGY" || containsStr t "OIL" || containsStr t "GAS",
    "Energy Sector ETF"),
   (containsStr t "INDUST" || containsStr t "AEROSPACE" || containsStr t "DEFENSE",
    "Industrial Sector ETF"),
   (containsStr t "CONSUM DIS" || containsStr t "CONSUMER DIS",
    "Consumer Discretionary Sector ETF"),
   (containsStr t "CONSUM STP" || containsStr t "CONSUMER STP"
      || containsStr t "CONSUM STAPLE",
    "Consumer Staples Sector ETF"),
   (containsStr t "UTIL" && containsStr t "ETF", "Utilities Sector ETF"),
   (containsStr t "MATERIAL" || (containsStr t "METAL" && containsStr t "ETF"),
    "Materials Sector ETF"),
   (containsStr t "COMM" && containsStr t "SVC", "Communication Services Sector ETF"),
   (containsStr t "REAL EST" || containsStr t "REIT", "Real Estate Equity ETF"),
   (containsStr t "DIV" && containsStr t "ETF", "Dividend Focused Equity ETF"),
   ((containsStr t "GROW" || containsStr t "GRW" || containsStr t "GWT")
      && containsStr t "ETF",
    "Growth Equity ETF"),
   ((containsStr t "VALUE" || containsStr t "VAL" || containsStr t "VL ")
      && containsStr t "ETF",
    "Value Equity ETF"),
   ((containsStr t "MOMENT" || containsStr t "MOMNT") && containsStr t "ETF",
    "Momentum Equity ETF"),
   ((containsStr t "LOW VOL" || containsStr t "MIN VOL") && containsStr t "ETF",
    "Low Volatility Equity ETF"),
   (containsStr t "QUAL" && containsStr t "ETF", "Quality Equity ETF"),
   (anyIn t ["LARGE CAP", "LRG CAP", "LCAP", "MEGA CAP", "S&P 500", "S&P500", "RUSSELL 1000"],
    "US Large Cap Equity ETF"),
   (anyIn t ["MID CAP", "MDCP", "MIDCAP", "S&P 400", "RUSSELL MID"],
    "US Mid Cap Equity ETF"),
   (anyIn t ["SMALL CAP", "SML CAP", "SMCP", "SMLCP", "S&P 600", "RUSSELL 2000"],
    "US Small Cap Equity ETF"),
   (anyIn t ["INTL", "INTERNATIONAL", "GLOBAL", "WORLD", "DEVELOPED"] && containsStr t "ETF",
    "International Developed Markets Equity ETF"),
   (anyIn t ["BOND", "BD ETF", "CORP BD", "AGGREGATE"] && containsStr t "ETF",
    "Fixed Income Bond ETF"),
   (anyIn t ["GOLD", "SILVER", "COMMODITY", "METAL", "PLATINUM", "PALLADIUM"],
    "Commodity ETF"),
   (anyIn t ["SHS", "SHARES", "STK", "STOCK", "CAP STK"], "Equity Security"),
   (containsStr t "ETF" || containsStr t "INDEX" || containsStr t "FUND",
    "Exchange Traded Fund"),
   (anyIn t ["BOND", "NOTE", "DEBT", "DEBENTURE"], "Fixed Income Security")]

/-- Models the ordered rule cascade of ClassTitleTransform._categorize_single
applied to an already-normalized title: the decision list evaluated
first-match-wins, with the final fallback category as default. -/
def ClassTitleTransform.categorizeNorm (t : String) : String :=
  firstMatch (ClassTitleTransform.rules t) "Unclassified Security"

/-- Models ClassTitleTransform._categorize_single on a non-null title:
normalize, then run the cascade. -/
def ClassTitleTransform.categorize (title : String) : String :=
  ClassTitleTransform.categorizeNorm (ClassTitleTransform.normalizeTitle title)

/-- Models ClassTitleTransform._categorize_single including its null check.
A missing title (pd.isna, modelled as none) is sent by the source to the
literal fallback category.  The Option result type records whether a null
value could ever be returned; the source always returns a plain string. -/
def ClassTitleTransform.categorizeSingle : Option String → Option String
  | none => some "Unclassified Security"
  | some t => some (ClassTitleTransform.categorize t)

/-- Position matcher for the warrant pattern of class_title_transformer.py:
star W, optional whitespace, EXP, optional whitespace, then a date
dd/dd/d2-4 (the first regex alternative subsumes the literal-placeholder
alternative).  Case-insensitive per re.IGNORECASE; greedy year of two to
four digits.  Returns the captured date characters. -/
def ClassTitleTransformer.warrantAt (s : List Char) : Option (List Char) :=
  (dropPreCI "*W".toList s).bind fun r1 =>
  (dropPreCI "EXP".toList (r1.dropWhile isWsChar)).bind fun r3 =>
  (takeDigitsN 2 (r3.dropWhile isWsChar)).bind fun p1 =>
  match p1.2 with
  | '/' :: r6 =>
    (takeDigitsN 2 r6).bind fun p2 =>
    match p2.2 with
    | '/' :: r8 =>
      let y := takeDigitsUpTo 4 r8
      if 2 ≤ y.1.length then some (p1.1 ++ '/' :: p2.1 ++ '/' :: y.1)
      else none
    | _ => none
  | _ => none

/-- Models parse_warrant_expiration: leftmost search for the warrant
pattern, returning the captured expiration text. -/
def ClassTitleTransformer.parseWarrantExpiration (title : String) : Option String :=
  (scanFor ClassTitleTransformer.warrantAt title.toList).map String.mk

/-- Models _to_iso_date: mm/dd/yyyy becomes yyyy-mm-dd when the year has
four digits, otherwise the input is returned unchanged. -/
def ClassTitleTransformer.toIsoDate (mdy : String) : String :=
  match splitOnC '/' mdy.toList with
  | [mm, dd, yy] =>
    if yy.length == 4 then String.mk (yy ++ '-' :: mm ++ '-' :: dd) else mdy
  | _ => mdy

/-- Models normalize_class_title: empty titles are returned as given; a
matched warrant expiration is rendered as a Warrant description, with the
literal placeholder date 99/99/9999 mapped to the unknown-expiry form;
otherwise the title is returned unchanged. -/
def ClassTitleTransformer.normalizeClassTitle (title : String) : String :=
  if title = "" then title
  else
    match ClassTitleTransformer.parseWarrantExpiration title with
    | none => title
    | some expiry =>
      if expiry = "99/99/9999" then "Warrant (expiry unknown)"
      else "Warrant (expires " ++ ClassTitleTransformer.toIsoDate expiry ++ ")"

/-- One emitted row of the SEC-HEADER block parser. -/
structure HeaderRow where
  sectionPath : String
  field : String
  value : String
deriving DecidableEq

/-- Trailing whitespace removed, modelling Python str.rstrip(). -/
def pyRstripL (l : List Char) : List Char :=
  (l.reverse.dropWhile isWsChar).reverse

/-- Indentation depth of a header line: count of leading tabs plus count
of leading spaces divided by two (integer division), computed over the
leading space/tab run, exactly as in SECHeaderParser.parse_rows. -/
def SECHeaderParser.lineIndent (l : List Char) : Nat :=
  let lead := l.takeWhile (fun c => c == ' ' || c == '\t')
  (lead.filter (fun c => c == '\t')).length + (lead.filter (fun c => c == ' ')).length / 2

/-- The line with its leading spaces and tabs removed. -/
def SECHeaderParser.lineContent (l : List Char) : List Char :=
  l.dropWhile (fun c => c == ' ' || c == '\t')

/-- Does the content end in a colon (str.endswith test from the source)? -/
def SECHeaderParser.endsColon (l : List Char) : Bool :=
  match l.getLast? with
  | some ':' => true
  | _ => false

/-- Join an open-section stack into a section path with the separator of
the source, with the HEADER sentinel for an empty stack. -/
def SECHeaderParser.joinSep : List String → String
  | [] => ""
  | [s] => s
  | s :: rest => s ++ " > " ++ SECHeaderParser.joinSep rest

/-- Section path of a stack: joined section names, or the root sentinel. -/
def SECHeaderParser.joinPath (l : List String) : String :=
  if l = [] then "HEADER" else SECHeaderParser.joinSep l

/-- One step of the section-stack state machine of
SECHeaderParser.parse_rows, processing a single raw line against the
current (stack, rows) state.  Opener lines pop to their depth and push;
field lines pop to their depth and emit; other nonempty lines emit a note
row under the unchanged stack. -/
def SECHeaderParser.headerStep (st : List String × List HeaderRow) (raw : List Char) :
    List String × List HeaderRow :=
  let line := pyRstripL raw
  if line = [] then st
  else
    let indent := SECHeaderParser.lineIndent line
    let content := SECHeaderParser.lineContent line
    if SECHeaderParser.endsColon content && !containsL ":\t".toList content then
      let name := pyStripS (String.mk content.dropLast)
      let popped := st.1.take indent
      let stack2 :=
        if popped.length == indent then popped ++ [name]
        else popped.take indent ++ [name]
      (stack2, st.2)
    else
      match splitColon content with
      | some (f, v) =>
        let popped := st.1.take indent
        (popped, st.2 ++ [⟨SECHeaderParser.joinPath popped,
                           pyStripS (String.mk f), pyStripS (String.mk v)⟩])
      | none =>
        (st.1, st.2 ++ [⟨SECHeaderParser.joinPath st.1, "_note", String.mk content⟩])

/-- Models SECHeaderParser.parse_rows: fold the state machine over the
lines of the header block (line splitting modelled on newline; the
rstrip in each step also absorbs carriage returns). -/
def SECHeaderParser.parseRows (headerText : String) : List HeaderRow :=
  ((splitOnC '\n' headerText.toList).foldl SECHeaderParser.headerStep ([], [])).2

/-- One emitted row of the legacy type-block parser. -/
structure TBRow where
  field : String
  value : String
deriving DecidableEq

/-- Word character of the regex word-boundary class (ASCII model). -/
def wordChar (c : Char) : Bool :=
  c.isAlphanum || c == '_'

/-- Position matcher for the start marker of the 13F-HR type block:
TYPE tag, optional whitespace, the form name, then a word boundary
(case-insensitive).  Returns the rest of the text after the form name,
which is where the Python match ends. -/
def TypeBlockScraper13FHR.type13FAt (s : List Char) : Option (List Char) :=
  (dropPreCI "<TYPE>".toList s).bind fun r1 =>
  (dropPreCI "13F-HR".toList (r1.dropWhile isWsChar)).bind fun r3 =>
  match r3 with
  | [] => some []
  | c :: _ => if wordChar c then none else some r3

/-- Leftmost search for the start marker; yields the text after it. -/
def TypeBlockScraper13FHR.findStart13F (text : String) : Option (List Char) :=
  scanFor TypeBlockScraper13FHR.type13FAt text.toList

/-- Position matcher for the INFORMATION TABLE end marker (case-insensitive,
with the trailing word boundary). -/
def TypeBlockScraper13FHR.infoTableAt (s : List Char) : Option Unit :=
  (dropPreCI "<TYPE>".toList s).bind fun r1 =>
  (dropPreCI "INFORMATION TABLE".toList (r1.dropWhile isWsChar)).bind fun r3 =>
  match r3 with
  | [] => some ()
  | c :: _ => if wordChar c then none else some ()

/-- Models TypeBlockScraper13FHR.extract_block: locate the 13F-HR start
marker; absent marker yields no block.  The block runs from the end of the
start marker to the start of the first following INFORMATION TABLE marker,
or is the empty span when that end marker is absent; a block that strips
to nothing yields no block. -/
def TypeBlockScraper13FHR.extractBlock (text : String) : Option String :=
  match TypeBlockScraper13FHR.findStart13F text with
  | none => none
  | some rest =>
    let endPos := (scanIdx TypeBlockScraper13FHR.infoTableAt 0 rest).getD 0
    let block := stripList (rest.take endPos)
    if block = [] then none else some (String.mk block)

/-- Full-line inline-tag match, modelling the anchored regex of
parse_to_rows rule one: an alphanumeric tag name in angle brackets, any
inner text, and the matching close tag ending the line.  Returns the tag
name and the stripped inner text. -/
def TypeBlockScraper13FHR.rule1Match (l : List Char) : Option (String × String) :=
  match l with
  | '<' :: r =>
    let p := r.span (fun c => c.isAlphanum)
    if p.1 = [] then none
    else
      match p.2 with
      | '>' :: r2 =>
        let close := '<' :: '/' :: (p.1 ++ ['>'])
        if close.length ≤ r2.length && endsWithL close r2 then
          some (String.mk p.1, String.mk (stripList (r2.take (r2.length - close.length))))
        else none
      | _ => none
  | _ => none

/-- Bare opening or closing tag at the start of the line (rule two of
parse_to_rows); such lines are discarded as structural noise. -/
def TypeBlockScraper13FHR.rule2Bare (l : List Char) : Bool :=
  match l with
  | '<' :: r =>
    let r2 := match r with
      | '/' :: rr => rr
      | _ => r
    let p := r2.span (fun c => c.isAlphanum)
    match p.1, p.2 with
    | _ :: _, '>' :: _ => true
    | _, _ => false
  | _ => false

/-- Checkbox marker starting at this position: an open bracket, optional
whitespace, an upper or lower case x and optional whitespace before the
close bracket (first regex alternative), or just optional whitespace and
the close bracket (second alternative).  Returns whether the box is
checked. -/
def TypeBlockScraper13FHR.cbAt (s : List Char) : Option Bool :=
  match s with
  | '[' :: r =>
    let r1 := r.dropWhile isWsChar
    let xTry : Option Bool :=
      match r1 with
      | 'X' :: r2 =>
        match r2.dropWhile isWsChar with
        | ']' :: _ => some true
        | _ => none
      | 'x' :: r2 =>
        match r2.dropWhile isWsChar with
        | ']' :: _ => some true
        | _ => none
      | _ => none
    match xTry with
    | some b => some b
    | none =>
      match r1 with
      | ']' :: _ => some false
      | _ => none
  | _ => none

/-- Lazy-prefix search for a checkbox marker: the shortest prefix before a
position where a bracket alternative matches, together with the checked
flag.  Models the anchored lazy group of rule three. -/
def TypeBlockScraper13FHR.cbSearchAux (acc : List Char) :
    List Char → Option (List Char × Bool)
  | [] => none
  | c :: cs =>
    match TypeBlockScraper13FHR.cbAt (c :: cs) with
    | some b => some (acc.reverse, b)
    | none => TypeBlockScraper13FHR.cbSearchAux (c :: acc) cs

/-- Search a line for the first checkbox marker; yields the text before the
bracket and whether the box is checked. -/
def TypeBlockScraper13FHR.cbSearch (l : List Char) : Option (List Char × Bool) :=
  TypeBlockScraper13FHR.cbSearchAux [] l

/-- Trailing colons removed, modelling str.rstrip applied with a colon. -/
def rstripColon (l : List Char) : List Char :=
  (l.reverse.dropWhile (fun c => c == ':')).reverse

/-- Per-line dispatch of TypeBlockScraper13FHR.parse_to_rows, in the fixed
priority order of the source: strip; skip empty lines; inline tag line;
discard bare tags; checkbox line (label stripped of trailing colons, the
checkbox sentinel when empty; Yes exactly when the bracket contains an x);
colon-split line; otherwise a text-sentinel row. -/
def TypeBlockScraper13FHR.parseLine (raw : String) : Option TBRow :=
  let line := stripList raw.toList
  if line = [] then none
  else
    match TypeBlockScraper13FHR.rule1Match line with
    | some (f, v) => some ⟨f, v⟩
    | none =>
      if TypeBlockScraper13FHR.rule2Bare line then none
      else
        match TypeBlockScraper13FHR.cbSearch line with
        | some (before, hasX) =>
          let f := rstripColon (stripList before)
          some ⟨if f = [] then "_checkbox" else String.mk f,
                if hasX then "Yes" else "No"⟩
        | none =>
          match splitColon line with
          | some (f, v) => some ⟨pyStripS (String.mk f), pyStripS (String.mk v)⟩
          | none => some ⟨"_text", String.mk line⟩

/-- Models TypeBlockScraper13FHR.parse_to_rows: per-line dispatch over the
lines of the block. -/
def TypeBlockScraper13FHR.parseToRows (block : String) : List TBRow :=
  (splitOnC '\n' block.toList).filterMap
    (fun l => TypeBlockScraper13FHR.parseLine (String.mk l))

/-- One or more whitespace characters consumed greedily (safe here because
every following pattern token is a non-whitespace character). -/
def wsPlus (l : List Char) : Option (List Char) :=
  match l with
  | c :: cs => if isWsChar c then some ((c :: cs).dropWhile isWsChar) else none
  | [] => none

/-- Position matcher for the labelled report-period header field of
FilingDateResolver.parse_date: the CONFORMED PERIOD OF REPORT label with
whitespace runs, optional whitespace, then exactly eight digits, which are
captured. -/
def FilingDateResolver.conformedAt (s : List Char) : Option String :=
  (dropPreL "CONFORMED".toList s).bind fun r1 =>
  (wsPlus r1).bind fun r2 =>
  (dropPreL "PERIOD".toList r2).bind fun r3 =>
  (wsPlus r3).bind fun r4 =>
  (dropPreL "OF".toList r4).bind fun r5 =>
  (wsPlus r5).bind fun r6 =>
  (dropPreL "REPORT:".toList r6).bind fun r7 =>
  (takeDigitsN 8 (r7.dropWhile isWsChar)).map fun p => String.mk p.1

/-- Position matcher for the labelled filing-date header field: the FILED
AS OF DATE label, optional whitespace, then eight captured digits. -/
def FilingDateResolver.filedAt (s : List Char) : Option String :=
  (dropPreL "FILED".toList s).bind fun r1 =>
  (wsPlus r1).bind fun r2 =>
  (dropPreL "AS".toList r2).bind fun r3 =>
  (wsPlus r3).bind fun r4 =>
  (dropPreL "OF".toList r4).bind fun r5 =>
  (wsPlus r5).bind fun r6 =>
  (dropPreL "DATE:".toList r6).bind fun r7 =>
  (takeDigitsN 8 (r7.dropWhile isWsChar)).map fun p => String.mk p.1

/-- A captured MM-DD-YYYY date: two month digits, two day digits, four
year digits. -/
structure MDY where
  mm : List Char
  dd : List Char
  yy : List Char
deriving DecidableEq

/-- Position matcher for an embedded tag holding an MM-DD-YYYY date between
the given open and close markers. -/
def FilingDateResolver.tagMDYAt (openTag closeTag : List Char) (s : List Char) :
    Option MDY :=
  (dropPreL openTag s).bind fun r1 =>
  (takeDigitsN 2 r1).bind fun p1 =>
  (dropPreL ['-'] p1.2).bind fun r2 =>
  (takeDigitsN 2 r2).bind fun p2 =>
  (dropPreL ['-'] p2.2).bind fun r3 =>
  (takeDigitsN 4 r3).bind fun p3 =>
  (dropPreL closeTag p3.2).map fun _ => ⟨p1.1, p2.1, p3.1⟩

/-- Leftmost search for the labelled report-period header field. -/
def FilingDateResolver.searchConformed (text : String) : Option String :=
  scanFor FilingDateResolver.conformedAt text.toList

/-- Leftmost search for the periodOfReport tag date. -/
def FilingDateResolver.searchPeriodTag (text : String) : Option MDY :=
  scanFor (FilingDateResolver.tagMDYAt "<periodOfReport>".toList
    "</periodOfReport>".toList) text.toList

/-- Leftmost search for the reportCalendarOrQuarter tag date. -/
def FilingDateResolver.searchQuarterTag (text : String) : Option MDY :=
  scanFor (FilingDateResolver.tagMDYAt "<reportCalendarOrQuarter>".toList
    "</reportCalendarOrQuarter>".toList) text.toList

/-- Leftmost search for the labelled filing-date header field. -/
def FilingDateResolver.searchFiled (text : String) : Option String :=
  scanFor FilingDateResolver.filedAt text.toList

/-- Gregorian leap year, as validated by datetime.strptime. -/
def isLeap (y : Nat) : Bool :=
  y % 4 == 0 && (y % 100 != 0 || y % 400 == 0)

/-- Days in a month, as validated by datetime.strptime. -/
def daysInMonth (m y : Nat) : Nat :=
  if m == 2 then (if isLeap y then 29 else 28)
  else if m == 4 || m == 6 || m == 9 || m == 11 then 30
  else 31

/-- Calendar validity of a captured MM-DD-YYYY date, modelling the checks
datetime.strptime performs: month in range, day in range for the month,
year at least one. -/
def validMDY (d : MDY) : Bool :=
  let m := digitsVal d.mm
  let dy := digitsVal d.dd
  let y := digitsVal d.yy
  decide (1 ≤ m) && decide (m ≤ 12) && decide (1 ≤ y) &&
  decide (1 ≤ dy) && decide (dy ≤ daysInMonth m y)

/-- The strftime rendering of a parsed MM-DD-YYYY date in YYYYMMDD form
(year zero-padded to the four captured digits). -/
def strftimeYMD (d : MDY) : String :=
  String.mk (d.yy ++ d.mm ++ d.dd)

/-- Models FilingDateResolver.parse_date.  The current processing date is
passed explicitly as today.  An invalid matched tag date makes strptime
raise, which the source does not catch; this is the error case. -/
def FilingDateResolver.parseDate (today : String) (text : String) : Except Unit String :=
  match FilingDateResolver.searchConformed text with
  | some d => Except.ok d
  | none =>
    match FilingDateResolver.searchPeriodTag text with
    | some m => if validMDY m then Except.ok (strftimeYMD m) else Except.error ()
    | none =>
      match FilingDateResolver.searchQuarterTag text with
      | some m => if validMDY m then Except.ok (strftimeYMD m) else Except.error ()
      | none =>
        match FilingDateResolver.searchFiled text with
        | some d => Except.ok d
        | none => Except.ok today

/-- The informationTable opening-tag literal of the extract_xml patterns. -/
def openIT : List Char := "<informationTable".toList

/-- The informationTable closing-tag literal of the extract_xml patterns. -/
def closeIT : List Char := "</informationTable>".toList

/-- Lazy close search for the named-file pattern of extract_xml: offset of
the end of the first closing informationTable literal that is followed by
optional whitespace and the closing TEXT marker.  Offsets inside the
opening literal cannot match, so scanning from the group start is sound. -/
def InfoTableExtractor.innerCloseA : List Char → Nat → Option Nat
  | [], _ => none
  | c :: cs, i =>
    if startsWithL closeIT (c :: cs) &&
       startsWithL "</TEXT>".toList (((c :: cs).drop closeIT.length).dropWhile isWsChar) then
      some (i + closeIT.length)
    else InfoTableExtractor.innerCloseA cs (i + 1)

/-- Lazy close search for the fallback pattern of extract_xml: offset of
the end of the first closing informationTable literal. -/
def InfoTableExtractor.innerCloseB : List Char → Nat → Option Nat
  | [], _ => none
  | c :: cs, i =>
    if startsWithL closeIT (c :: cs) then some (i + closeIT.length)
    else InfoTableExtractor.innerCloseB cs (i + 1)

/-- Lazy scan, within the named-file pattern, for a TEXT opening marker
followed by optional whitespace, the informationTable payload and its
accepted close; successive marker candidates are tried in order, exactly
as the backtracking lazy gap of the regex does.  Returns the captured
payload group. -/
def InfoTableExtractor.aCont : List Char → Option (List Char)
  | [] => none
  | c :: cs =>
    match
      (dropPreL "<TEXT>".toList (c :: cs)).bind fun r1 =>
        let r2 := r1.dropWhile isWsChar
        if startsWithL openIT r2 then
          (InfoTableExtractor.innerCloseA r2 0).map fun n => r2.take n
        else none
    with
    | some g => some g
    | none => InfoTableExtractor.aCont cs

/-- Position matcher for the named-file pattern of extract_xml: the
declared form13fInfoTable.xml filename marker, a lazy gap, a TEXT marker,
optional whitespace, then the captured informationTable payload whose
close is followed by optional whitespace and the closing TEXT marker. -/
def InfoTableExtractor.matchAat (s : List Char) : Option (List Char) :=
  match dropPreL "<FILENAME>form13fInfoTable.xml".toList s with
  | none => none
  | some r => InfoTableExtractor.aCont r

/-- Position matcher for the fallback pattern of extract_xml: a bare
informationTable payload up to the first closing literal. -/
def InfoTableExtractor.matchBat (s : List Char) : Option (List Char) :=
  if startsWithL openIT s then
    (InfoTableExtractor.innerCloseB s 0).map fun n => s.take n
  else none

/-- Models InfoTableExtractor.extract_xml: leftmost search for the
named-file pattern first, then for the bare informationTable payload;
None when neither pattern matches anywhere. -/
def InfoTableExtractor.extractXml (text : String) : Option String :=
  match scanFor InfoTableExtractor.matchAat text.toList with
  | some g => some (String.mk g)
  | none => (scanFor InfoTableExtractor.matchBat text.toList).map String.mk

/-- A namespace-qualified element name, as ElementTree produces after
resolving the default xmlns of the document. -/
structure QName where
  ns : String
  loc : String
deriving DecidableEq

/-- Parsed markup element: qualified tag, text before the first child,
child elements in document order.  Tail text is not retained because the
extractor never reads it. -/
inductive Xml where
  | elem (tag : QName) (txt : String) (children : List Xml)

/-- Tag of an element. -/
def Xml.tag : Xml → QName
  | .elem t _ _ => t

/-- Text before the first child of an element. -/
def Xml.txt : Xml → String
  | .elem _ s _ => s

/-- Child elements of an element. -/
def Xml.children : Xml → List Xml
  | .elem _ _ c => c

/-- The direct children carrying a given qualified tag, in document order;
this is what Element.findall with a single namespaced step returns. -/
def childrenNamed (q : QName) (x : Xml) : List Xml :=
  x.children.filter (fun c => c.tag == q)

/-- First direct child with the given qualified tag (Element.find, one
step). -/
def findChild (q : QName) (x : Xml) : Option Xml :=
  (childrenNamed q x).head?

/-- First element on a two-step path (Element.find with a child path):
for each first-step child in order, its second-step children, first
overall. -/
def findPath2 (q1 q2 : QName) (x : Xml) : Option Xml :=
  ((childrenNamed q1 x).flatMap (childrenNamed q2)).head?

/-- The information-table namespace URI of the source module. -/
def nsIT : String := "http://www.sec.gov/edgar/document/thirteenf/informationtable"

/-- A name qualified in the information-table namespace. -/
def itQ (nm : String) : QName := ⟨nsIT, nm⟩

/-- Models InfoTableExtractor._get_text for a one-step path: stripped text
of the first matching child, or the empty string. -/
def getText1 (x : Xml) (nm : String) : String :=
  match findChild (itQ nm) x with
  | some e => pyStripS e.txt
  | none => ""

/-- Models InfoTableExtractor._get_text for a two-step path. -/
def getText2 (x : Xml) (nm1 nm2 : String) : String :=
  match findPath2 (itQ nm1) (itQ nm2) x with
  | some e => pyStripS e.txt
  | none => ""

/-- One holdings row, with the exact keys of the dict built by
InfoTableExtractor.parse_rows. -/
structure HoldingRec where
  issuer_name : String
  class_title : String
  cusip : String
  value_usd_quarter_end : Option Int
  shares_or_principal : Option Int
  shares_type : String
  discretion : String
  other_manager_seq : Option Int
  vote_sole : Option Int
  vote_shared : Option Int
  vote_none : Option Int
deriving DecidableEq

/-- The row emitted for a table-row element none of whose fields resolve:
text fields empty, numeric fields absent. -/
def emptyRec : HoldingRec :=
  ⟨"", "", "", none, none, "", "", none, none, none, none⟩

/-- The row built for one infoTable element by the body of the
parse_rows loop: verbatim trimmed text fields and tolerantly coerced
numeric fields. -/
def InfoTableExtractor.extractRow (node : Xml) : HoldingRec :=
  ⟨getText1 node "nameOfIssuer",
   getText1 node "titleOfClass",
   getText1 node "cusip",
   InfoTableExtractor.toInt (getText1 node "value"),
   InfoTableExtractor.toInt (getText2 node "shrsOrPrnAmt" "sshPrnamt"),
   getText2 node "shrsOrPrnAmt" "sshPrnamtType",
   getText1 node "investmentDiscretion",
   InfoTableExtractor.toInt (getText1 node "otherManager"),
   InfoTableExtractor.toInt (getText2 node "votingAuthority" "Sole"),
   InfoTableExtractor.toInt (getText2 node "votingAuthority" "Shared"),
   InfoTableExtractor.toInt (getText2 node "votingAuthority" "None")⟩

/-- The row list built by parse_rows over an already-parsed tree: one row
per direct infoTable child of the root, in order, each row emitted
unconditionally. -/
def InfoTableExtractor.parseRowsTree (root : Xml) : List HoldingRec :=
  (childrenNamed (itQ "infoTable") root).map InfoTableExtractor.extractRow

/-- Characters allowed in a markup name for the parser model. -/
def nameChar (c : Char) : Bool :=
  c.isAlphanum || c == '_' || c == '-' || c == '.' || c == ':'

/-- Attribute scanner of the markup parser model: consume attributes up to
the closing angle or self-close marker, recording the default-namespace
declaration when present.  Returns the declaration and the rest,
positioned at the tag end; None on malformed attribute syntax. -/
def parseAttrsF : Nat → List Char → Option (Option String × List Char)
  | 0, _ => none
  | fuel + 1, s =>
    let s1 := s.dropWhile isWsChar
    if startsWithL ['>'] s1 || startsWithL ['/', '>'] s1 then some (none, s1)
    else
      let p := s1.span nameChar
      if p.1 = [] then none
      else
        match p.2 with
        | '=' :: q :: rest =>
          if q == '"' || q == '\'' then
            let v := rest.takeWhile (fun c => !(c == q))
            match rest.drop v.length with
            | [] => none
            | _ :: rest2 =>
              match parseAttrsF fuel rest2 with
              | none => none
              | some (x, r) =>
                some (if String.mk p.1 = "xmlns" then some (String.mk v) else x, r)
          else none
        | _ => none

mutual

/-- Recursive-descent element parser modelling ET.fromstring on the markup
subset the extractor consumes: nested elements with attributes, default
namespaces, self-closing tags and text.  Fuel bounds recursion; the top
entry point supplies fuel exceeding the input length, so fuel exhaustion
is unreachable on the inputs evaluated in this file.  Errors mirror the
conditions on which ET raises ParseError. -/
def parseElemF : Nat → String → List Char → Except String (Xml × List Char)
  | 0, _, _ => Except.error "parser fuel exhausted"
  | fuel + 1, ns, s =>
    match s with
    | '<' :: r =>
      let p := r.span nameChar
      if p.1 = [] then Except.error "expected element name"
      else
        match parseAttrsF (fuel + 1) p.2 with
        | none => Except.error "malformed attributes"
        | some (xns, r1) =>
          let ns2 := xns.getD ns
          if startsWithL ['/', '>'] r1 then
            Except.ok (Xml.elem ⟨ns2, String.mk p.1⟩ "" [], r1.drop 2)
          else if startsWithL ['>'] r1 then
            let body := r1.drop 1
            let txt := body.takeWhile (fun c => !(c == '<'))
            match parseChildrenF fuel ns2 (String.mk p.1) (body.drop txt.length) with
            | Except.error e => Except.error e
            | Except.ok pr =>
              Except.ok (Xml.elem ⟨ns2, String.mk p.1⟩ (String.mk txt) pr.1, pr.2)
          else Except.error "malformed tag"
    | _ => Except.error "expected tag open"

/-- Child-sequence parser: elements and interleaved text up to the closing
tag named by the enclosing element; a mismatched or missing close is an
error, as in ET. -/
def parseChildrenF : Nat → String → String → List Char → Except String (List Xml × List Char)
  | 0, _, _, _ => Except.error "parser fuel exhausted"
  | fuel + 1, ns, closeName, s =>
    match s with
    | [] => Except.error "unexpected end of document"
    | '<' :: '/' :: r =>
      let p := r.span nameChar
      match p.2.dropWhile isWsChar with
      | '>' :: r2 =>
        if String.mk p.1 = closeName then Except.ok ([], r2)
        else Except.error "mismatched tag"
      | _ => Except.error "malformed close tag"
    | '<' :: r =>
      match parseElemF fuel ns ('<' :: r) with
      | Except.error e => Except.error e
      | Except.ok pr =>
        let txt := pr.2.takeWhile (fun c => !(c == '<'))
        match parseChildrenF fuel ns closeName (pr.2.drop txt.length) with
        | Except.error e => Except.error e
        | Except.ok pr2 => Except.ok (pr.1 :: pr2.1, pr2.2)
    | _ :: _ => Except.error "stray content"

end

/-- Models ET.fromstring on an extracted payload: parse one document
element and require nothing but whitespace after it. -/
def InfoTableExtractor.fromstring (s : String) : Except String Xml :=
  let l := s.toList.dropWhile isWsChar
  match parseElemF (l.length + 1) "" l with
  | Except.error e => Except.error e
  | Except.ok pr =>
    if pr.2.dropWhile isWsChar = [] then Except.ok pr.1
    else Except.error "junk after document element"

/-- Models InfoTableExtractor.parse_rows on the payload string: parse the
tree (an uncaught ParseError is the error case) and emit one row per
infoTable child. -/
def InfoTableExtractor.parseRows (xml : String) : Except String (List HoldingRec) :=
  (InfoTableExtractor.fromstring xml).map InfoTableExtractor.parseRowsTree

/-- Models the holdings path of Extractor13FHR.run: extract the payload;
when none is found the row list is silently empty and the output artifact
is still produced; when a payload is found, parse_rows runs and any parse
error propagates uncaught, aborting the filing.  An ok value is the row
list the workbook writer receives. -/
def Extractor13FHR.runInfoRows (text : String) : Except String (List HoldingRec) :=
  match InfoTableExtractor.extractXml text with
  | none => Except.ok []
  | some xml => InfoTableExtractor.parseRows xml

/-- A small holdings payload with two table rows, used to instantiate the
row-cardinality theorem. -/
def sampleXml : String :=
  "<informationTable xmlns=\"http://www.sec.gov/edgar/document/thirteenf/informationtable\"><infoTable><nameOfIssuer>ACME CORP</nameOfIssuer></infoTable><infoTable></infoTable></informationTable>"

/-- The tree ET.fromstring produces for sampleXml. -/
def sampleRoot : Xml :=
  Xml.elem ⟨nsIT, "informationTable"⟩ ""
    [Xml.elem ⟨nsIT, "infoTable"⟩ ""
       [Xml.elem ⟨nsIT, "nameOfIssuer"⟩ "ACME CORP" []],
     Xml.elem ⟨nsIT, "infoTable"⟩ "" []]

theorem firstMatch_at (pre post : List (Bool × String)) (c : Bool) (r dflt : String)
    (hc : c = true) :
    firstMatch (pre ++ (c, r) :: post) dflt = r ∨
      firstMatch (pre ++ (c, r) :: post) dflt ∈ pre.map Prod.snd := by
  induction pre with
  | nil => simp [firstMatch, hc]
  | cons p pre ih =>
    simp only [List.cons_append, firstMatch, List.map_cons]
    cases hp : p.1 with
    | true =>
      simp only [if_pos rfl, if_true]
      right
      exact List.mem_cons_self _ _
    | false =>
      simp only [Bool.false_eq_true, if_false]
      rcases ih with h1 | h1
      · left; exact h1
      · right; exact List.mem_cons_of_mem _ h1

theorem commonSub_ne_fund (t : String) :
    (ClassTitleTransform.commonSub t == "Exchange Traded Fund") = false := by
  delta ClassTitleTransform.commonSub
  repeat' split
  all_goals decide

theorem firstMatch_skip (pre post : List (Bool × String)) (c : Bool) (r dflt : String)
    (hpre : ∀ p ∈ pre, p.1 = false) (hc : c = true) :
    firstMatch (pre ++ (c, r) :: post) dflt = r := by
  induction pre with
  | nil => simp [firstMatch, hc]
  | cons p pre ih =>
    have hp : p.1 = false := hpre p (List.mem_cons_self _ _)
    simp only [List.cons_append, firstMatch, hp, Bool.false_eq_true, if_false]
    exact ih (fun q hq => hpre q (List.mem_cons_of_mem _ hq))

theorem tech_no_generic (t : String)
    (hc : anyIn t ["TECH", "SEMICONDUCTOR", "SOFTWARE", "CYBER", "CLOUD", "AI",
      "ARTIFICIAL"] = true) :
    (ClassTitleTransform.categorizeNorm t == "Exchange Traded Fund") = false := by
  have hres := firstMatch_at ((ClassTitleTransform.rules t).take 20)
      ((ClassTitleTransform.rules t).drop 21)
      (anyIn t ["TECH", "SEMICONDUCTOR", "SOFTWARE", "CYBER", "CLOUD", "AI", "ARTIFICIAL"])
      "Technology Sector ETF" "Unclassified Security" hc
  have e : (ClassTitleTransform.rules t).take 20 ++
      (anyIn t ["TECH", "SEMICONDUCTOR", "SOFTWARE", "CYBER", "CLOUD", "AI", "ARTIFICIAL"],
       "Technology Sector ETF") :: (ClassTitleTransform.rules t).drop 21 =
      ClassTitleTransform.rules t := rfl
  rw [e] at hres
  show (firstMatch (ClassTitleTransform.rules t) "Unclassified Security" ==
    "Exchange Traded Fund") = false
  rcases hres with h1 | h1
  · rw [h1]; decide
  · have emap : ((ClassTitleTransform.rules t).take 20).map Prod.snd =
        ["Expiring Security - Rights & Warrants", "Target Maturity Bond ETF",
         "Fixed Income Note", ClassTitleTransform.commonSub t, "Preferred Stock",
         "American Depositary Receipt", "Partnership Unit", "US Treasury Security",
         "Municipal Bond ETF", "High Yield Bond ETF", "Investment Grade Bond ETF",
         "Short Term Bond ETF", "Intermediate Term Bond ETF", "Long Term Bond ETF",
         "Inflation Protected Bond ETF", "ESG/Sustainable Equity ETF",
         "Asia Pacific Equity ETF", "European Equity ETF", "Latin America Equity ETF",
         "Emerging Markets Equity ETF"] := rfl
    rw [emap] at h1
    simp only [List.mem_cons, List.not_mem_nil, or_false] at h1
    rcases h1 with h1|h1|h1|h1|h1|h1|h1|h1|h1|h1|h1|h1|h1|h1|h1|h1|h1|h1|h1|h1 <;>
      rw [h1] <;> first | decide | exact commonSub_ne_fund t

/-- C2 counterexample: on the missing/null title the taxonomy classifier
returns the fallback category string, not the null value the claim
asserts; the result is a present (some) value. -/
theorem C2_counterexample :
    ClassTitleTransform.categorizeSingle none = some "Unclassified Security" ∧
    (ClassTitleTransform.categorizeSingle none).isSome = true :=
  ⟨rfl, rfl⟩

/-- C2 (amended): a missing/null input title is coerced by
_categorize_single to the fallback category Unclassified Security;
nullability is never preserved, the classifier always returns a present
category value. -/
theorem C2_null_coerced :
    ClassTitleTransform.categorizeSingle none = some "Unclassified Security" ∧
    ∀ t : Option String, (ClassTitleTransform.categorizeSingle t).isSome = true := by
  refine ⟨rfl, ?_⟩
  intro t
  cases t <;> rfl

/-- C4: numeric-field coercion is tolerant: a successful direct integer
parse is returned as-is; otherwise all non-digit characters are stripped
and the remainder parsed, with absence (never zero, never an error) for
the empty string or when no digits remain. -/
theorem C4_tolerant_coercion :
    (∀ (s : String) (n : Int), pyIntParse s = some n →
        InfoTableExtractor.toInt s = some n) ∧
    (∀ s : String, s ≠ "" → pyIntParse s = none →
        InfoTableExtractor.toInt s =
          (if stripNonDigits s = "" then none
           else some (Int.ofNat (digitsVal (stripNonDigits s).toList)))) ∧
    InfoTableExtractor.toInt "1,234" = some 1234 ∧
    InfoTableExtractor.toInt "" = none ∧
    InfoTableExtractor.toInt "no digits here" = none := by
  refine ⟨?_, ?_, by decide, rfl, by decide⟩
  · intro s n h
    by_cases hs : s = ""
    · subst hs
      have h0 : pyIntParse "" = none := rfl
      rw [h0] at h
      exact Option.noConfusion h
    · simp [InfoTableExtractor.toInt, hs, h]
  · intro s hs h
    simp [InfoTableExtractor.toInt, hs, h]

/-- C4 witness: the general clauses instantiated at concrete inputs. -/
theorem C4_witness :
    InfoTableExtractor.toInt " 42 " = some 42 ∧
    InfoTableExtractor.toInt "-17" = some (-17) :=
  ⟨C4_tolerant_coercion.1 " 42 " 42 (by decide),
   C4_tolerant_coercion.1 "-17" (-17) (by decide)⟩

/-- C5: the header parser attributes each field line to the section stack
in force when the line is read: the two-level nested input yields exactly
one field with path A, then B, field X, value 1; a depth-zero field after
a deeper open section is emitted under the root sentinel, which does not
contain the popped section names. -/
theorem C5_header_section_paths :
    SECHeaderParser.parseRows "A:\n\tB:\n\t\tX: 1\n" = [⟨"A > B", "X", "1"⟩] ∧
    SECHeaderParser.parseRows "SECA:\n\tSECB:\n\t\tX: 1\nY: 2\n" =
      [⟨"SECA > SECB", "X", "1"⟩, ⟨"HEADER", "Y", "2"⟩] ∧
    containsStr "HEADER" "SECA" = false ∧
    containsStr "HEADER" "SECB" = false := by
  refine ⟨by decide, by decide, by decide, by decide⟩

/-- C7 counterexample: the title TREASURY TECH ETF contains the technology
keyword and the bare word ETF after normalization, yet the classifier
returns the earlier treasury category, not the technology-sector
category, because an earlier cascade rule matches first. -/
theorem C7_counterexample :
    containsStr (ClassTitleTransform.normalizeTitle "TREASURY TECH ETF") "TECH" = true ∧
    containsStr (ClassTitleTransform.normalizeTitle "TREASURY TECH ETF") "ETF" = true ∧
    ClassTitleTransform.categorize "TREASURY TECH ETF" = "US Treasury Security" ∧
    (ClassTitleTransform.categorize "TREASURY TECH ETF" == "Technology Sector ETF")
      = false := by
  refine ⟨by decide, by decide, by decide, by decide⟩

/-- C7 (amended): sector rules run strictly before the generic ETF
catch-all: TECH SELECT ETF resolves to the technology-sector category; no
title whose normalization contains any technology keyword (TECH,
SEMICONDUCTOR, SOFTWARE, CYBER, CLOUD, AI, ARTIFICIAL) ever resolves to
the generic fund/ETF catch-all; and every such title on which no earlier
cascade rule fires resolves to the technology-sector category (titles
matching an even earlier rule resolve to that earlier category). -/
theorem C7_sector_before_generic :
    ClassTitleTransform.categorize "TECH SELECT ETF" = "Technology Sector ETF" ∧
    (∀ title : String,
      anyIn (ClassTitleTransform.normalizeTitle title)
        ["TECH", "SEMICONDUCTOR", "SOFTWARE", "CYBER", "CLOUD", "AI", "ARTIFICIAL"]
        = true →
      (ClassTitleTransform.categorize title == "Exchange Traded Fund") = false) ∧
    (∀ title : String,
      anyIn (ClassTitleTransform.normalizeTitle title)
        ["TECH", "SEMICONDUCTOR", "SOFTWARE", "CYBER", "CLOUD", "AI", "ARTIFICIAL"]
        = true →
      (∀ p ∈ (ClassTitleTransform.rules
          (ClassTitleTransform.normalizeTitle title)).take 20, p.1 = false) →
      ClassTitleTransform.categorize title = "Technology Sector ETF") := by
  refine ⟨by decide, ?_, ?_⟩
  · intro title h
    exact tech_no_generic (ClassTitleTransform.normalizeTitle title) h
  · intro title hc hpre
    show firstMatch
      (ClassTitleTransform.rules (ClassTitleTransform.normalizeTitle title))
      "Unclassified Security" = "Technology Sector ETF"
    have e : (ClassTitleTransform.rules
          (ClassTitleTransform.normalizeTitle title)).take 20 ++
        (anyIn (ClassTitleTransform.normalizeTitle title)
           ["TECH", "SEMICONDUCTOR", "SOFTWARE", "CYBER", "CLOUD", "AI", "ARTIFICIAL"],
         "Technology Sector ETF") ::
        (ClassTitleTransform.rules
          (ClassTitleTransform.normalizeTitle title)).drop 21 =
        ClassTitleTransform.rules (ClassTitleTransform.normalizeTitle title) := rfl
    rw [← e]
    exact firstMatch_skip _ _ _ _ _ hpre hc

/-- C7 witness: the general clauses instantiated at concrete titles using
technology keywords other than TECH. -/
theorem C7_witness :
    (ClassTitleTransform.categorize "CYBER SECURITY FUND" == "Exchange Traded Fund")
      = false ∧
    ClassTitleTransform.categorize "SOFTWARE ETF" = "Technology Sector ETF" :=
  ⟨C7_sector_before_generic.2.1 "CYBER SECURITY FUND" (by decide),
   C7_sector_before_generic.2.2 "SOFTWARE ETF" (by decide) (by decide)⟩

/-- C9: the warrant-expiration pass reformats a genuine expiration date to
the ISO form, maps the undisclosed-expiration placeholder to the unknown
form, and returns any title without the warrant marker unchanged. -/
theorem C9_warrant_pass :
    ClassTitleTransformer.normalizeClassTitle "ABC *W EXP 12/31/2025" =
      "Warrant (expires 2025-12-31)" ∧
    ClassTitleTransformer.normalizeClassTitle "ABC *W EXP 99/99/9999" =
      "Warrant (expiry unknown)" ∧
    ∀ t : String, ClassTitleTransformer.parseWarrantExpiration t = none →
      ClassTitleTransformer.normalizeClassTitle t = t := by
  refine ⟨by decide, by decide, ?_⟩
  intro t h
  by_cases ht : t = ""
  · subst ht; rfl
  · simp [ClassTitleTransformer.normalizeClassTitle, ht, h]

/-- C9 witness: a marker-free title passes through unchanged. -/
theorem C9_witness :
    ClassTitleTransformer.normalizeClassTitle "COMMON STOCK CLASS A" =
      "COMMON STOCK CLASS A" :=
  C9_warrant_pass.2.2 "COMMON STOCK CLASS A" (by decide)

theorem takeDigitsN_len :
    ∀ (n : Nat) (l : List Char) (p : List Char × List Char),
      takeDigitsN n l = some p → p.1.length = n := by
  intro n
  induction n with
  | zero =>
    intro l p h
    simp only [takeDigitsN, Option.some.injEq] at h
    rw [← h]
    rfl
  | succ n ih =>
    intro l p h
    cases l with
    | nil => simp [takeDigitsN] at h
    | cons c cs =>
      by_cases hc : c.isDigit
      · simp only [takeDigitsN, hc, if_true] at h
        cases h2 : takeDigitsN n cs with
        | none => rw [h2] at h; exact Option.noConfusion h
        | some q =>
          rw [h2] at h
          simp only [Option.some.injEq] at h
          rw [← h]
          simp [ih cs q h2]
      · simp [takeDigitsN, hc] at h

theorem scanFor_some {α : Type} (p : List Char → Option α) (Q : α → Prop)
    (hp : ∀ s r, p s = some r → Q r) :
    ∀ (l : List Char) (r : α), scanFor p l = some r → Q r := by
  intro l
  induction l with
  | nil =>
    intro r h
    simp only [scanFor] at h
    exact hp [] r h
  | cons c cs ih =>
    intro r h
    simp only [scanFor] at h
    cases hc : p (c :: cs) with
    | some x =>
      rw [hc] at h
      simp only [Option.some.injEq] at h
      exact h ▸ hp _ _ hc
    | none =>
      rw [hc] at h
      exact ih r h

theorem conformedAt_len (s : List Char) (d : String)
    (h : FilingDateResolver.conformedAt s = some d) : d.length = 8 := by
  unfold FilingDateResolver.conformedAt at h
  simp only [Option.bind_eq_some, Option.map_eq_some'] at h
  obtain ⟨r1, _, r2, _, r3, _, r4, _, r5, _, r6, _, r7, _, p, hp, rfl⟩ := h
  have := takeDigitsN_len 8 _ p hp
  simpa [String.length] using this

theorem filedAt_len (s : List Char) (d : String)
    (h : FilingDateResolver.filedAt s = some d) : d.length = 8 := by
  unfold FilingDateResolver.filedAt at h
  simp only [Option.bind_eq_some, Option.map_eq_some'] at h
  obtain ⟨r1, _, r2, _, r3, _, r4, _, r5, _, r6, _, r7, _, p, hp, rfl⟩ := h
  have := takeDigitsN_len 8 _ p hp
  simpa [String.length] using this

theorem tagMDYAt_shape (openTag closeTag : List Char) (s : List Char) (m : MDY)
    (h : FilingDateResolver.tagMDYAt openTag closeTag s = some m) :
    m.mm.length = 2 ∧ m.dd.length = 2 ∧ m.yy.length = 4 := by
  unfold FilingDateResolver.tagMDYAt at h
  simp only [Option.bind_eq_some, Option.map_eq_some'] at h
  obtain ⟨r1, _, p1, hp1, r2, _, p2, hp2, r3, _, p3, hp3, q, _, rfl⟩ := h
  exact ⟨takeDigitsN_len 2 _ p1 hp1, takeDigitsN_len 2 _ p2 hp2,
         takeDigitsN_len 4 _ p3 hp3⟩

theorem strftimeYMD_len (m : MDY)
    (h2 : m.mm.length = 2) (h3 : m.dd.length = 2) (h4 : m.yy.length = 4) :
    (strftimeYMD m).length = 8 := by
  show (String.mk (m.yy ++ m.mm ++ m.dd)).length = 8
  have : (String.mk (m.yy ++ m.mm ++ m.dd)).length =
      (m.yy ++ m.mm ++ m.dd).length := rfl
  rw [this]
  simp [List.length_append, h2, h3, h4]

/-- C6 counterexample: a document whose periodOfReport tag holds the
syntactically matching but calendar-invalid date 99-99-9999 makes the
resolver raise (strptime fails), so it does not return a date string for
every document text. -/
theorem C6_counterexample :
    FilingDateResolver.parseDate "20261012"
      "<periodOfReport>99-99-9999</periodOfReport>" = Except.error () := rfl

/-- C6 (amended): the resolver tries the five sources in the stated order,
stopping at the first success, and in particular a document carrying only
a filing-date field yields that eight-digit filing date, never the
current-date fallback; however a matched MM-DD-YYYY tag is reformatted
only when it is a valid calendar date, otherwise the resolver raises
instead of returning. -/
theorem C6_cascade (today text : String) :
    (∀ d, FilingDateResolver.searchConformed text = some d →
        FilingDateResolver.parseDate today text = Except.ok d ∧ d.length = 8) ∧
    (FilingDateResolver.searchConformed text = none →
      ∀ m, FilingDateResolver.searchPeriodTag text = some m → validMDY m = true →
        FilingDateResolver.parseDate today text = Except.ok (strftimeYMD m) ∧
          (strftimeYMD m).length = 8) ∧
    (FilingDateResolver.searchConformed text = none →
      FilingDateResolver.searchPeriodTag text = none →
      ∀ m, FilingDateResolver.searchQuarterTag text = some m → validMDY m = true →
        FilingDateResolver.parseDate today text = Except.ok (strftimeYMD m) ∧
          (strftimeYMD m).length = 8) ∧
    (FilingDateResolver.searchConformed text = none →
      FilingDateResolver.searchPeriodTag text = none →
      FilingDateResolver.searchQuarterTag text = none →
      ∀ d, FilingDateResolver.searchFiled text = some d →
        FilingDateResolver.parseDate today text = Except.ok d ∧ d.length = 8) ∧
    (FilingDateResolver.searchConformed text = none →
      FilingDateResolver.searchPeriodTag text = none →
      FilingDateResolver.searchQuarterTag text = none →
      FilingDateResolver.searchFiled text = none →
      FilingDateResolver.parseDate today text = Except.ok today) := by
  refine ⟨?_, ?_, ?_, ?_, ?_⟩
  · intro d h
    refine ⟨by simp [FilingDateResolver.parseDate, h], ?_⟩
    exact scanFor_some _ (fun r => r.length = 8) conformedAt_len _ d h
  · intro h1 m h2 hv
    refine ⟨by simp [FilingDateResolver.parseDate, h1, h2, hv], ?_⟩
    have hs := scanFor_some _
      (fun r : MDY => r.mm.length = 2 ∧ r.dd.length = 2 ∧ r.yy.length = 4)
      (tagMDYAt_shape _ _) _ m h2
    exact strftimeYMD_len m hs.1 hs.2.1 hs.2.2
  · intro h1 h2 m h3 hv
    refine ⟨by simp [FilingDateResolver.parseDate, h1, h2, h3, hv], ?_⟩
    have hs := scanFor_some _
      (fun r : MDY => r.mm.length = 2 ∧ r.dd.length = 2 ∧ r.yy.length = 4)
      (tagMDYAt_shape _ _) _ m h3
    exact strftimeYMD_len m hs.1 hs.2.1 hs.2.2
  · intro h1 h2 h3 d h4
    refine ⟨by simp [FilingDateResolver.parseDate, h1, h2, h3, h4], ?_⟩
    exact scanFor_some _ (fun r => r.length = 8) filedAt_len _ d h4
  · intro h1 h2 h3 h4
    simp [FilingDateResolver.parseDate, h1, h2, h3, h4]

/-- C6 witness: a document carrying only a filing-date field resolves to
that date, not to the supplied current-date fallback. -/
theorem C6_witness :
    FilingDateResolver.parseDate "20990101" "FILED AS OF DATE: 20240215" =
      Except.ok "20240215" :=
  ((C6_cascade "20990101" "FILED AS OF DATE: 20240215").2.2.2.1
    rfl rfl rfl "20240215" rfl).1

/-- C8: a type-block line carrying a bracketed checkbox marker (and not
claimed by the earlier inline-tag or bare-tag rules) is emitted as a field
named by the text before the bracket with trailing colons stripped (the
checkbox sentinel when that text is empty), valued Yes exactly when the
bracket contains an x; checkbox detection beats generic colon-splitting
even when the label contains a colon. -/
theorem C8_checkbox_rows :
    (∀ (raw : String) (before : List Char) (hasX : Bool),
        stripList raw.toList ≠ [] →
        TypeBlockScraper13FHR.rule1Match (stripList raw.toList) = none →
        TypeBlockScraper13FHR.rule2Bare (stripList raw.toList) = false →
        TypeBlockScraper13FHR.cbSearch (stripList raw.toList) = some (before, hasX) →
        TypeBlockScraper13FHR.parseLine raw =
          some ⟨if rstripColon (stripList before) = [] then "_checkbox"
                else String.mk (rstripColon (stripList before)),
                if hasX then "Yes" else "No"⟩) ∧
    TypeBlockScraper13FHR.parseToRows "Check here if Amendment [X]" =
      [⟨"Check here if Amendment", "Yes"⟩] ∧
    TypeBlockScraper13FHR.parseToRows "Check here if Amendment []" =
      [⟨"Check here if Amendment", "No"⟩] ∧
    TypeBlockScraper13FHR.parseToRows "Amendment flag: see box [X]" =
      [⟨"Amendment flag: see box", "Yes"⟩] := by
  refine ⟨?_, by decide, by decide, by decide⟩
  intro raw before hasX h0 h1 h2 h3
  simp only [String.toList] at h0 h1 h2 h3
  simp [TypeBlockScraper13FHR.parseLine, String.toList, h0, h1, h2, h3]

/-- C8 witness: the general clause instantiated at a concrete checkbox
line with a lower-case marker. -/
theorem C8_witness :
    TypeBlockScraper13FHR.parseLine "Is this an Amendment [x]" =
      some ⟨"Is this an Amendment", "Yes"⟩ := by
  have h := C8_checkbox_rows.1 "Is this an Amendment [x]"
    "Is this an Amendment ".toList true (by decide) (by decide) (by decide) (by decide)
  simpa using h

/-- C10: when the 13F-HR form-type start marker matches but no INFORMATION
TABLE marker occurs after it, extract_block returns no block: the
extracted span is empty, never the remainder of the document. -/
theorem C10_no_end_marker :
    ∀ (text : String) (rest : List Char),
      TypeBlockScraper13FHR.findStart13F text = some rest →
      scanIdx TypeBlockScraper13FHR.infoTableAt 0 rest = none →
      TypeBlockScraper13FHR.extractBlock text = none := by
  intro text rest h1 h2
  simp [TypeBlockScraper13FHR.extractBlock, h1, h2, stripList]

/-- C10 witness: a document with the start marker and no end marker yields
no block. -/
theorem C10_witness :
    TypeBlockScraper13FHR.extractBlock "<TYPE>13F-HR\njust ordinary lines" = none :=
  C10_no_end_marker "<TYPE>13F-HR\njust ordinary lines" _ rfl rfl

/-- C1 counterexample: a filing in which the holdings table cannot be
located does not fail: the orchestrator silently proceeds with an empty
row list (the workbook is still written), contradicting the claimed
TableNotFound failure. -/
theorem C1_counterexample :
    Extractor13FHR.runInfoRows "ACCESSION NUMBER: 1-23 with no holdings table" =
      Except.ok [] := rfl

/-- C1 (amended): the orchestrator treats a missing holdings table as an
empty row list and likewise emits an empty artifact for a located table
that parses to zero rows; only markup that fails to parse as a tree
aborts the filing, with the uncaught parser error (no TableNotFound,
MalformedTable or EmptyTable errors exist). -/
theorem C1_amended_behavior :
    (∀ text : String, InfoTableExtractor.extractXml text = none →
        Extractor13FHR.runInfoRows text = Except.ok []) ∧
    Extractor13FHR.runInfoRows
      "<SEC-DOCUMENT>junk <informationTable xmlns=\"http://www.sec.gov/edgar/document/thirteenf/informationtable\"></informationTable> more" =
      Except.ok [] ∧
    Extractor13FHR.runInfoRows
      "<TEXT><informationTable><holding></informationTable></TEXT>" =
      Except.error "mismatched tag" := by
  refine ⟨?_, rfl, rfl⟩
  intro text h
  simp [Extractor13FHR.runInfoRows, h]

/-- C1 witness: the locate-failure clause instantiated at a concrete
filing text. -/
theorem C1_witness :
    Extractor13FHR.runInfoRows "plain filing with no structured markup" =
      Except.ok [] :=
  C1_amended_behavior.1 "plain filing with no structured markup" rfl

/-- C3: row cardinality is preserved: parse_rows emits exactly one record
per infoTable child of the parsed root, and a table row in which no field
resolves is still emitted with empty text fields and absent numeric
fields. -/
theorem C3_row_cardinality :
    (∀ (s : String) (root : Xml), InfoTableExtractor.fromstring s = Except.ok root →
        InfoTableExtractor.parseRows s =
          Except.ok (InfoTableExtractor.parseRowsTree root) ∧
        (InfoTableExtractor.parseRowsTree root).length =
          (childrenNamed (itQ "infoTable") root).length) ∧
    (∀ txt : String,
        InfoTableExtractor.extractRow (Xml.elem (itQ "infoTable") txt []) = emptyRec) := by
  constructor
  · intro s root h
    constructor
    · simp [InfoTableExtractor.parseRows, h, Except.map]
    · simp [InfoTableExtractor.parseRowsTree]
  · intro txt
    rfl

/-- C3 witness: the cardinality clause instantiated on a concrete two-row
payload. -/
theorem C3_witness :
    InfoTableExtractor.parseRows sampleXml =
      Except.ok (InfoTableExtractor.parseRowsTree sampleRoot) ∧
    (InfoTableExtractor.parseRowsTree sampleRoot).length =
      (childrenNamed (itQ "infoTable") sampleRoot).length :=
  C3_row_cardinality.1 sampleXml sampleRoot rfl
